import Mathlib

/-!
Shallow embedding of the yara-based detector layer of the repository
(`src/plugins/yara/plugins_yara.cpp`).  The pattern-matching engine
(`yara::Yara`), the result data model (`Result`) and the registration
helper (`AutoRegister`) are declared in headers that are not among the
provided sources, so they are modelled from the specification; the
scan-to-finding reduction `YaraPlugin::scan`, the rule loader
`YaraPlugin::_load_rules` and the four concrete detectors are translated
from the source file.  Engine behaviour is passed in as explicit
parameters: the outcome of each rule-load attempt (an oracle indexed by
rule file and attempt number) and the list of match records the engine
reports for the scanned target.
-/

/-- Modelled from the spec: the `Result` class is not among the provided
sources.  These are the threat levels the source file references
(`Result::NO_OPINION`, `Result::SUSPICIOUS`, `Result::MALICIOUS`). -/
inductive LEVEL where
  | NO_OPINION
  | SUSPICIOUS
  | MALICIOUS

/-- Modelled from the spec: the `Result` class (the uniform finding) is not
among the provided sources.  A finding holds a severity (unset by default),
an optional summary (set only on match) and an append-only ordered list of
informational lines. -/
structure Result where
  level : Option LEVEL
  summary : Option String
  information : List String

/-- Modelled from the spec: a default-constructed `Result` (`new Result` in
the source) is empty — no severity, no summary, no information. -/
def Result.empty : Result := ⟨none, none, []⟩

/-- Modelled from the spec: `Result::set_level` stores the severity. -/
def Result.set_level (r : Result) (l : LEVEL) : Result :=
  { r with level := some l }

/-- Modelled from the spec: `Result::set_summary` stores the summary. -/
def Result.set_summary (r : Result) (s : String) : Result :=
  { r with summary := some s }

/-- Modelled from the spec: `Result::add_information` appends one line at
the end of the ordered information sequence (insertion order preserved). -/
def Result.add_information (r : Result) (s : String) : Result :=
  { r with information := r.information ++ [s] }

/-- Modelled from the spec: one engine-reported match (`yara::matches`
element); it exposes metadata lookup (`operator[]`, a field-name to value
map) and the raw collection of matched substrings. -/
structure MatchRecord where
  fields : String → String
  found_strings : List String

/-- Modelled from the spec: `get_found_strings` returns a C++
`std::set<std::string>` of the matched substrings; iterating a `std::set`
visits the distinct elements in lexicographic order, embedded here as the
lexicographically sorted deduplication of the underlying collection. -/
def MatchRecord.get_found_strings (r : MatchRecord) : List String :=
  List.insertionSort (fun a b => a ≤ b) r.found_strings.dedup

/-- The per-detector state visible to the embedded code: the rule-file path
fixed at construction (member `_rule_file`) and, so that lazy/failable
loading is observable, the number of rule-load attempts the embedded engine
has performed so far. -/
structure PluginState where
  rule_file : String
  load_attempts : Nat

/-- Source `YaraPlugin::_load_rules`: asks the engine to load `_rule_file`
and reports whether it succeeded; every call performs exactly one engine
load attempt (on failure the source only prints a diagnostic and returns
false).  `engine_load` is the engine's outcome oracle, indexed by the rule
file and by the attempt number. -/
def YaraPlugin._load_rules (engine_load : String → Nat → Bool)
    (st : PluginState) : Bool × PluginState :=
  (engine_load st.rule_file st.load_attempts,
   { st with load_attempts := st.load_attempts + 1 })

/-- Source `YaraPlugin::scan`, body of the loop over `yara::matches`: when
`show_strings` is false, append the configured metadata field of the
record; otherwise append a marker line and then one tab-indented line per
element of the record's found-string set. -/
def processMatch (meta_field_name : String) (show_strings : Bool)
    (res : Result) (r : MatchRecord) : Result :=
  if show_strings = false then
    res.add_information (r.fields meta_field_name)
  else
    let res := res.add_information (r.fields meta_field_name ++ " String(s) found:")
    r.get_found_strings.foldl (fun acc s => acc.add_information ("\t" ++ s)) res

/-- Source `YaraPlugin::scan`: construct a fresh empty result; if rule
loading fails, return it unchanged; otherwise scan the target (the engine's
answer is `engine_matches`) and, when at least one match exists, set the
configured level and summary and process every match in engine order. -/
def YaraPlugin.scan (engine_load : String → Nat → Bool)
    (engine_matches : List MatchRecord) (st : PluginState)
    (summary : String) (level : LEVEL) (meta_field_name : String)
    (show_strings : Bool) : Result × PluginState :=
  let res := Result.empty
  let loaded := YaraPlugin._load_rules engine_load st
  if loaded.1 = false then
    (res, loaded.2)
  else if 0 < engine_matches.length then
    let res := (res.set_level level).set_summary summary
    (engine_matches.foldl (processMatch meta_field_name show_strings) res, loaded.2)
  else
    (res, loaded.2)

/-- Source `ClamavPlugin` constructor: bound to `yara_rules/clamav.yara`,
no load attempt made yet. -/
def ClamavPlugin.init : PluginState := ⟨"yara_rules/clamav.yara", 0⟩

/-- Source `ClamavPlugin::analyze`: scan with the ClamAV summary, level
`MALICIOUS`, metadata field `signature`, `show_strings` defaulted false. -/
def ClamavPlugin.analyze (engine_load : String → Nat → Bool)
    (engine_matches : List MatchRecord) (st : PluginState) :
    Result × PluginState :=
  YaraPlugin.scan engine_load engine_matches st "Matching ClamAV signature(s):"
    LEVEL.MALICIOUS "signature" false

/-- Source `CompilerDetectionPlugin` constructor. -/
def CompilerDetectionPlugin.init : PluginState := ⟨"yara_rules/compilers.yara", 0⟩

/-- Source `CompilerDetectionPlugin::analyze`. -/
def CompilerDetectionPlugin.analyze (engine_load : String → Nat → Bool)
    (engine_matches : List MatchRecord) (st : PluginState) :
    Result × PluginState :=
  YaraPlugin.scan engine_load engine_matches st "Matching compiler(s):"
    LEVEL.NO_OPINION "description" false

/-- Source `PEiDPlugin` constructor. -/
def PEiDPlugin.init : PluginState := ⟨"yara_rules/peid.yara", 0⟩

/-- Source `PEiDPlugin::analyze`. -/
def PEiDPlugin.analyze (engine_load : String → Nat → Bool)
    (engine_matches : List MatchRecord) (st : PluginState) :
    Result × PluginState :=
  YaraPlugin.scan engine_load engine_matches st "PEiD Signature:"
    LEVEL.SUSPICIOUS "packer_name" false

/-- Source `SuspiciousStringsPlugin` constructor. -/
def SuspiciousStringsPlugin.init : PluginState := ⟨"yara_rules/suspicious_strings.yara", 0⟩

/-- Source `SuspiciousStringsPlugin::analyze`: the only detector passing
`show_strings = true`. -/
def SuspiciousStringsPlugin.analyze (engine_load : String → Nat → Bool)
    (engine_matches : List MatchRecord) (st : PluginState) :
    Result × PluginState :=
  YaraPlugin.scan engine_load engine_matches st
    "Strings found in the binary may indicate undesirable behavior:"
    LEVEL.SUSPICIOUS "description" true

/-- The informational lines one match record contributes to the finding,
per the loop body of `YaraPlugin::scan`. -/
def recordLines (meta_field_name : String) (show_strings : Bool)
    (r : MatchRecord) : List String :=
  if show_strings = false then [r.fields meta_field_name]
  else (r.fields meta_field_name ++ " String(s) found:") ::
    r.get_found_strings.map (fun s => "\t" ++ s)

/-- The per-record line groups of a whole scan, concatenated in
engine-return order. -/
def linesOf (meta_field_name : String) (show_strings : Bool) :
    List MatchRecord → List String
  | [] => []
  | r :: rs => recordLines meta_field_name show_strings r ++
      linesOf meta_field_name show_strings rs

/-- Modelled from the spec: the detector catalog behind `AutoRegister` is
not among the provided sources.  Registration inserts an (id, description)
entry; a duplicate id is a configuration error: the registration is
rejected (reported as `false`) and the catalog is returned unchanged,
never silently overwritten. -/
def register_detector (catalog : List (String × String)) (id desc : String) :
    Bool × List (String × String) :=
  match catalog.find? (fun p => p.1 == id) with
  | some _ => (false, catalog)
  | none => (true, catalog ++ [(id, desc)])

/-- Modelled from the spec: catalog lookup-by-id. -/
def lookup_by_id (catalog : List (String × String)) (id : String) :
    Option String :=
  (catalog.find? (fun p => p.1 == id)).map Prod.snd

/-- Sample match record: a ClamAV-style hit whose `signature` field is
`EICAR-Test` and which matched no concrete substrings. -/
def mr_eicar : MatchRecord := ⟨fun _ => "EICAR-Test", []⟩

/-- Sample match record: a packer hit whose metadata fields are all `UPX`
and whose matched substrings are `UPX1`, `UPX0`, `UPX0` (with a
duplicate, in non-lexicographic order). -/
def mr_upx : MatchRecord := ⟨fun _ => "UPX", ["UPX1", "UPX0", "UPX0"]⟩

theorem foldl_add_information_tab (l : List String) (res : Result) :
    l.foldl (fun acc s => acc.add_information ("\t" ++ s)) res =
      { res with information := res.information ++ l.map (fun s => "\t" ++ s) } := by
  induction l generalizing res with
  | nil => simp
  | cons a l ih =>
      rw [List.foldl_cons, ih]
      simp [Result.add_information, List.append_assoc]

theorem processMatch_eq (f : String) (b : Bool) (res : Result) (r : MatchRecord) :
    processMatch f b res r =
      { res with information := res.information ++ recordLines f b r } := by
  cases b with
  | false => simp [processMatch, recordLines, Result.add_information]
  | true =>
      simp only [processMatch, recordLines]
      rw [foldl_add_information_tab]
      simp [Result.add_information, List.append_assoc]

theorem foldl_processMatch (f : String) (b : Bool) (m : List MatchRecord)
    (res : Result) :
    m.foldl (processMatch f b) res =
      { res with information := res.information ++ linesOf f b m } := by
  induction m generalizing res with
  | nil => simp [linesOf]
  | cons r rs ih =>
      rw [List.foldl_cons, processMatch_eq, ih]
      simp [linesOf, List.append_assoc]

theorem scan_eq (el : String → Nat → Bool) (em : List MatchRecord)
    (st : PluginState) (s : String) (l : LEVEL) (f : String) (b : Bool) :
    YaraPlugin.scan el em st s l f b =
      (if el st.rule_file st.load_attempts = false then Result.empty
       else if 0 < em.length then
         ⟨some l, some s, linesOf f b em⟩
       else Result.empty,
       { st with load_attempts := st.load_attempts + 1 }) := by
  cases hel : el st.rule_file st.load_attempts with
  | false =>
      simp [YaraPlugin.scan, YaraPlugin._load_rules, hel]
  | true =>
      by_cases hm : 0 < em.length
      · simp [YaraPlugin.scan, YaraPlugin._load_rules, hel, hm,
          foldl_processMatch, Result.empty, Result.set_level, Result.set_summary]
      · simp [YaraPlugin.scan, YaraPlugin._load_rules, hel, hm]

theorem linesOf_length (f : String) (b : Bool) (m : List MatchRecord) :
    (linesOf f b m).length = (m.map (fun r => (recordLines f b r).length)).sum := by
  induction m with
  | nil => simp [linesOf]
  | cons r rs ih => simp [linesOf, ih]

/-- C1: for every detector configuration and every target, if the rule-load
attempt fails, `scan` returns the empty finding — severity unset, no
summary, empty information sequence — and, being a total function,
propagates no error. -/
theorem scan_load_failure_returns_empty (el : String → Nat → Bool)
    (em : List MatchRecord) (st : PluginState) (s : String) (l : LEVEL)
    (f : String) (b : Bool) (h : el st.rule_file st.load_attempts = false) :
    (YaraPlugin.scan el em st s l f b).1 = Result.empty := by
  rw [scan_eq]
  simp [h]

/-- Witness for C1 at a concrete input: an always-failing engine loader. -/
theorem scan_load_failure_returns_empty_witness :
    (fun (_ : String) (_ : Nat) => false) "yara_rules/clamav.yara" 0 = false ∧
    (YaraPlugin.scan (fun _ _ => false) [] ⟨"yara_rules/clamav.yara", 0⟩
        "Matching ClamAV signature(s):" LEVEL.MALICIOUS "signature" false).1 =
      Result.empty :=
  ⟨rfl, scan_load_failure_returns_empty _ _ _ _ _ _ _ rfl⟩

/-- C2: for every detector configuration, a scan for which the engine
returns zero match records yields the empty finding — default severity,
unset summary, empty information sequence — whatever the load outcome. -/
theorem scan_no_matches_returns_empty (el : String → Nat → Bool)
    (st : PluginState) (s : String) (l : LEVEL) (f : String) (b : Bool) :
    (YaraPlugin.scan el [] st s l f b).1 = Result.empty := by
  rw [scan_eq]
  cases hel : el st.rule_file st.load_attempts <;> simp [hel]

/-- C3: with `show_strings = true` the information sequence is, record by
record, a marker line `<field value> String(s) found:` followed by one
tab-indented line per unique matched substring of that record, the
substrings deduplicated and in lexicographic order. -/
theorem scan_show_strings_lines (em : List MatchRecord) (st : PluginState)
    (s : String) (l : LEVEL) (f : String) :
    (YaraPlugin.scan (fun _ _ => true) em st s l f true).1.information =
      linesOf f true em ∧
    (∀ r : MatchRecord, recordLines f true r =
      (r.fields f ++ " String(s) found:") ::
        r.get_found_strings.map (fun x => "\t" ++ x)) ∧
    (∀ r : MatchRecord,
      List.Sorted (fun a b => a ≤ b) r.get_found_strings ∧
      r.get_found_strings.Nodup ∧
      ∀ x : String, x ∈ r.get_found_strings ↔ x ∈ r.found_strings) := by
  refine ⟨?_, ?_, ?_⟩
  · rw [scan_eq]
    by_cases hm : 0 < em.length
    · simp [hm]
    · have hnil : em = [] := List.length_eq_zero.mp (Nat.eq_zero_of_not_pos hm)
      subst hnil
      simp [linesOf, Result.empty]
  · intro r
    simp [recordLines]
  · intro r
    refine ⟨?_, ?_, ?_⟩
    · exact List.sorted_insertionSort _ _
    · exact ((List.perm_insertionSort _ _).nodup_iff).mpr (List.nodup_dedup _)
    · intro x
      rw [MatchRecord.get_found_strings, (List.perm_insertionSort _ _).mem_iff,
        List.mem_dedup]

/-- C4: with two or more match records, the information sequence is the
concatenation, in engine-return order, of the line group of each record,
and its length is the sum of the group lengths — no line is merged or
deduplicated across distinct records. -/
theorem scan_records_in_engine_order (em : List MatchRecord)
    (st : PluginState) (s : String) (l : LEVEL) (f : String) (b : Bool)
    (h : 2 ≤ em.length) :
    (YaraPlugin.scan (fun _ _ => true) em st s l f b).1.information =
      linesOf f b em ∧
    (linesOf f b em).length =
      (em.map (fun r => (recordLines f b r).length)).sum := by
  constructor
  · rw [scan_eq]
    have hm : 0 < em.length := lt_of_lt_of_le (by decide) h
    simp [hm]
  · exact linesOf_length f b em

/-- Witness for C4: two identical records each contribute their own group. -/
theorem scan_records_in_engine_order_witness :
    2 ≤ ([mr_upx, mr_upx] : List MatchRecord).length ∧
    ((YaraPlugin.scan (fun _ _ => true) [mr_upx, mr_upx]
        ⟨"yara_rules/peid.yara", 0⟩ "PEiD Signature:" LEVEL.SUSPICIOUS
        "packer_name" false).1.information =
      linesOf "packer_name" false [mr_upx, mr_upx] ∧
     (linesOf "packer_name" false [mr_upx, mr_upx]).length =
      (([mr_upx, mr_upx] : List MatchRecord).map
        (fun r => (recordLines "packer_name" false r).length)).sum) :=
  ⟨by decide, scan_records_in_engine_order _ _ _ _ _ _ (by decide)⟩

/-- C5: the ClamAV detector, on a target producing exactly one match record
whose `signature` field is `EICAR-Test`, returns a finding with severity
`MALICIOUS`, the configured summary set, and information `["EICAR-Test"]`. -/
theorem clamav_eicar_match (st : PluginState) (r : MatchRecord)
    (h : r.fields "signature" = "EICAR-Test") :
    (ClamavPlugin.analyze (fun _ _ => true) [r] st).1 =
      ⟨some LEVEL.MALICIOUS, some "Matching ClamAV signature(s):",
        ["EICAR-Test"]⟩ := by
  unfold ClamavPlugin.analyze
  rw [scan_eq]
  simp [linesOf, recordLines, h]

/-- Witness for C5 at a concrete record and the detector's initial state. -/
theorem clamav_eicar_match_witness :
    mr_eicar.fields "signature" = "EICAR-Test" ∧
    (ClamavPlugin.analyze (fun _ _ => true) [mr_eicar] ClamavPlugin.init).1 =
      ⟨some LEVEL.MALICIOUS, some "Matching ClamAV signature(s):",
        ["EICAR-Test"]⟩ :=
  ⟨rfl, clamav_eicar_match _ _ rfl⟩

/-- C6 counterexample: after a failed rule load, a second `analyze` call
does perform a further rule-load attempt — the attempt counter moves from 1
to 2, so the failure is not terminal in the sense the claim states. -/
theorem clamav_failed_load_reattempted :
    ((ClamavPlugin.analyze (fun _ _ => false) []
        ((ClamavPlugin.analyze (fun _ _ => false) [] ClamavPlugin.init).2)).2).load_attempts ≠
      ((ClamavPlugin.analyze (fun _ _ => false) [] ClamavPlugin.init).2).load_attempts := by
  decide

/-- C6 amended: a failed rule load is not cached — every call to `scan`
makes exactly one fresh rule-load attempt, and while loading keeps failing
each call returns the empty finding. -/
theorem scan_reattempts_load_every_call (el : String → Nat → Bool)
    (em : List MatchRecord) (st : PluginState) (s : String) (l : LEVEL)
    (f : String) (b : Bool) (h : el st.rule_file st.load_attempts = false) :
    (YaraPlugin.scan el em st s l f b).2.load_attempts = st.load_attempts + 1 ∧
    (YaraPlugin.scan el em st s l f b).1 = Result.empty := by
  rw [scan_eq]
  simp [h]

/-- Witness for the amended C6: second call after a failure, concretely. -/
theorem scan_reattempts_load_every_call_witness :
    (fun (_ : String) (_ : Nat) => false) "yara_rules/clamav.yara" 1 = false ∧
    ((YaraPlugin.scan (fun _ _ => false) [] ⟨"yara_rules/clamav.yara", 1⟩
        "Matching ClamAV signature(s):" LEVEL.MALICIOUS "signature"
        false).2.load_attempts = 1 + 1 ∧
     (YaraPlugin.scan (fun _ _ => false) [] ⟨"yara_rules/clamav.yara", 1⟩
        "Matching ClamAV signature(s):" LEVEL.MALICIOUS "signature"
        false).1 = Result.empty) :=
  ⟨rfl, scan_reattempts_load_every_call _ _ _ _ _ _ _ rfl⟩

/-- C7: with unchanged rules (a constant engine load outcome) and unchanged
engine results, a second `scan` call returns a finding identical to the
first call's. -/
theorem scan_second_call_same_result (c : Bool) (em : List MatchRecord)
    (st : PluginState) (s : String) (l : LEVEL) (f : String) (b : Bool) :
    (YaraPlugin.scan (fun _ _ => c) em
        ((YaraPlugin.scan (fun _ _ => c) em st s l f b).2) s l f b).1 =
      (YaraPlugin.scan (fun _ _ => c) em st s l f b).1 := by
  simp only [scan_eq]

/-- C8: registering a second detector under an id already present in the
catalog is rejected (reported as a configuration error) and the earlier
registration is still the one found by lookup — never overwritten. -/
theorem register_duplicate_id_rejected (catalog : List (String × String))
    (id d d' : String) (h : lookup_by_id catalog id = some d) :
    register_detector catalog id d' = (false, catalog) ∧
    lookup_by_id (register_detector catalog id d').2 id = some d := by
  have hf : ∃ p, catalog.find? (fun p => p.1 == id) = some p := by
    unfold lookup_by_id at h
    cases hc : catalog.find? (fun p => p.1 == id) with
    | none => rw [hc] at h; simp at h
    | some p => exact ⟨p, rfl⟩
  obtain ⟨p, hp⟩ := hf
  have hreg : register_detector catalog id d' = (false, catalog) := by
    unfold register_detector
    rw [hp]
  exact ⟨hreg, by rw [hreg]; exact h⟩

/-- Witness for C8: re-registering the id `clamav` is rejected and the
original description survives. -/
theorem register_duplicate_id_rejected_witness :
    lookup_by_id [("clamav", "Scans the binary with ClamAV virus definitions.")]
        "clamav" = some "Scans the binary with ClamAV virus definitions." ∧
    (register_detector
        [("clamav", "Scans the binary with ClamAV virus definitions.")]
        "clamav" "duplicate" =
      (false, [("clamav", "Scans the binary with ClamAV virus definitions.")]) ∧
     lookup_by_id (register_detector
        [("clamav", "Scans the binary with ClamAV virus definitions.")]
        "clamav" "duplicate").2 "clamav" =
      some "Scans the binary with ClamAV virus definitions.") :=
  ⟨rfl, register_duplicate_id_rejected _ _ _ _ rfl⟩

/-- C9: with `show_strings = true`, a record whose matched-substring set is
empty still contributes its marker line, followed by no indented lines. -/
theorem show_strings_marker_with_empty_set (st : PluginState) (s : String)
    (l : LEVEL) (f : String) (r : MatchRecord) (h : r.found_strings = []) :
    (YaraPlugin.scan (fun _ _ => true) [r] st s l f true).1.information =
      [r.fields f ++ " String(s) found:"] := by
  rw [scan_eq]
  simp [linesOf, recordLines, MatchRecord.get_found_strings, h]

/-- Witness for C9 at a concrete record with no matched substrings. -/
theorem show_strings_marker_with_empty_set_witness :
    mr_eicar.found_strings = [] ∧
    (YaraPlugin.scan (fun _ _ => true) [mr_eicar]
        SuspiciousStringsPlugin.init
        "Strings found in the binary may indicate undesirable behavior:"
        LEVEL.SUSPICIOUS "description" true).1.information =
      [mr_eicar.fields "description" ++ " String(s) found:"] :=
  ⟨rfl, show_strings_marker_with_empty_set _ _ _ _ _ rfl⟩

/-- C10: a `scan` call leaves the detector's bound configuration unchanged:
the rule-file path fixed at construction survives the call, and each
concrete detector's `analyze` always passes the same constant summary,
level, metadata field name and show-strings flag to `scan`. -/
theorem scan_preserves_bound_configuration (el : String → Nat → Bool)
    (em : List MatchRecord) (st : PluginState) (s : String) (l : LEVEL)
    (f : String) (b : Bool) :
    (YaraPlugin.scan el em st s l f b).2.rule_file = st.rule_file ∧
    ClamavPlugin.analyze el em st =
      YaraPlugin.scan el em st "Matching ClamAV signature(s):"
        LEVEL.MALICIOUS "signature" false ∧
    CompilerDetectionPlugin.analyze el em st =
      YaraPlugin.scan el em st "Matching compiler(s):"
        LEVEL.NO_OPINION "description" false ∧
    PEiDPlugin.analyze el em st =
      YaraPlugin.scan el em st "PEiD Signature:"
        LEVEL.SUSPICIOUS "packer_name" false ∧
    SuspiciousStringsPlugin.analyze el em st =
      YaraPlugin.scan el em st
        "Strings found in the binary may indicate undesirable behavior:"
        LEVEL.SUSPICIOUS "description" true := by
  refine ⟨?_, rfl, rfl, rfl, rfl⟩
  rw [scan_eq]
